import Mathlib

/-!
# Verification of the InvestmentCalc retirement simulation engine

Shallow embedding of the simulation engine of src/investment.py.
Python floats are modelled as exact rationals.  The Gaussian return draws
are modelled by explicit sample streams (random.gauss has full real
support, so a universally quantified stream covers every possible run and
a concrete stream is one possible run).  The two real-valued derived
constants of the source, monthly_mean_return = (1 + annual_return_rate) **
(1/12) - 1 and 12 ** 0.5, are irrational in general and are therefore
carried as explicit parameters of the embedding (the code only combines
them rationally with the rest of the state).
-/

namespace InvestmentCalc

/-- Base personal allowance cutoff, source line 12. -/
def BASE_PERSONAL_ALLOWANCE : ℚ := 12570

/-- Base basic-rate limit, source line 13. -/
def BASE_BASIC_RATE_LIMIT : ℚ := 50270

/-- Base higher-rate limit, source line 14. -/
def BASE_HIGHER_RATE_LIMIT : ℚ := 125140

/-- Tiered income-tax calculation, embedding calc_tax_annual
(src/investment.py lines 16-28).  The rate literals 0.20, 0.40, 0.45 are
written 20/100, 40/100, 45/100 (the same rationals). -/
def calc_tax_annual (gross pa brt hrt : ℚ) : ℚ :=
  if gross ≤ 0 then 0
  else if gross ≤ pa then 0
  else
    let basic_portion := max 0 (min gross brt - pa)
    let higher_portion := if brt < gross then max 0 (min gross hrt - brt) else 0
    let additional_portion := if hrt < gross then max 0 (gross - hrt) else 0
    basic_portion * (20/100) + higher_portion * (40/100) + additional_portion * (45/100)

/-- Net income after tax, embedding calc_net_annual (lines 30-31). -/
def calc_net_annual (gross pa brt hrt : ℚ) : ℚ :=
  gross - calc_tax_annual gross pa brt hrt

/-- One step of the bisection loop of required_gross_annual_for_net_annual
(lines 38-43): halve the interval, keeping the lower half when the net at
the midpoint is still below the target. -/
def bisect_step (net_annual pa brt hrt : ℚ) (lh : ℚ × ℚ) : ℚ × ℚ :=
  let mid := (lh.1 + lh.2) / 2
  if calc_net_annual mid pa brt hrt < net_annual then (mid, lh.2) else (lh.1, mid)

/-- The for-loop of required_gross_annual_for_net_annual, counted by fuel. -/
def bisect_iter (net_annual pa brt hrt : ℚ) : ℕ → ℚ × ℚ → ℚ × ℚ
  | 0, lh => lh
  | n + 1, lh => bisect_iter net_annual pa brt hrt n (bisect_step net_annual pa brt hrt lh)

/-- Binary search for the gross needed to net a given amount, embedding
required_gross_annual_for_net_annual (lines 33-44): 50 bisection steps on
the interval from 0 to 2,000,000, returning the final upper bound. -/
def required_gross_annual_for_net_annual (net_annual pa brt hrt : ℚ) : ℚ :=
  if net_annual ≤ 0 then 0
  else (bisect_iter net_annual pa brt hrt 50 (0, 2000000)).2

/-- The inflation factor applied to the tax brackets: re-indexed every 5
years (lines 51-52). -/
def bracket_factor (year : ℕ) (annual_inflation_rate : ℚ) : ℚ :=
  (1 + annual_inflation_rate) ^ (5 * (year / 5))

/-- Inflation-adjusted tax brackets for a year, embedding
get_tax_brackets_for_year (lines 46-56). -/
def get_tax_brackets_for_year (year : ℕ) (annual_inflation_rate : ℚ) : ℚ × ℚ × ℚ :=
  (BASE_PERSONAL_ALLOWANCE * bracket_factor year annual_inflation_rate,
   BASE_BASIC_RATE_LIMIT * bracket_factor year annual_inflation_rate,
   BASE_HIGHER_RATE_LIMIT * bracket_factor year annual_inflation_rate)

/-! ## Tax-model lemmas

calc_tax_annual has a closed clamp form from which monotonicity of the
tax and of the net follow.  All of these assume the brackets are ordered,
0 ≤ pa ≤ brt ≤ hrt, which holds for every bracket triple the simulation
produces. -/

theorem max_zero_sub (x c : ℚ) : max 0 (x - c) = max c x - c := by
  rcases le_total x c with h | h
  · rw [max_eq_left (by linarith : x - c ≤ 0), max_eq_left h]
    ring
  · rw [max_eq_right (by linarith : (0:ℚ) ≤ x - c), max_eq_right h]

theorem clamps_eq_zero_of_le_pa (gross pa brt hrt : ℚ) (h : gross ≤ pa) (h1 : pa ≤ brt)
    (h2 : brt ≤ hrt) :
    (max pa (min gross brt) - pa) * (20/100) + (max brt (min gross hrt) - brt) * (40/100)
      + (max hrt gross - hrt) * (45/100) = 0 := by
  rw [min_eq_left (h.trans h1), min_eq_left (h.trans (h1.trans h2)),
    max_eq_left h, max_eq_left (h.trans h1), max_eq_left (h.trans (h1.trans h2))]
  ring

theorem tax_eq_clamps (gross pa brt hrt : ℚ) (h0 : 0 ≤ pa) (h1 : pa ≤ brt)
    (h2 : brt ≤ hrt) :
    calc_tax_annual gross pa brt hrt =
      (max pa (min gross brt) - pa) * (20/100) + (max brt (min gross hrt) - brt) * (40/100)
        + (max hrt gross - hrt) * (45/100) := by
  simp only [calc_tax_annual]
  by_cases hg : gross ≤ 0
  · rw [if_pos hg, clamps_eq_zero_of_le_pa gross pa brt hrt (hg.trans h0) h1 h2]
  · rw [if_neg hg]
    by_cases hpa : gross ≤ pa
    · rw [if_pos hpa, clamps_eq_zero_of_le_pa gross pa brt hrt hpa h1 h2]
    · rw [if_neg hpa]
      by_cases hb : brt < gross
      · rw [if_pos hb]
        by_cases hh : hrt < gross
        · rw [if_pos hh, max_zero_sub, max_zero_sub, max_zero_sub]
        · rw [if_neg hh, max_zero_sub, max_zero_sub, max_eq_left (le_of_not_lt hh)]
          ring
      · have hgb : gross ≤ brt := le_of_not_lt hb
        rw [if_neg hb, if_neg (by linarith : ¬ hrt < gross), max_zero_sub,
          min_eq_left (by linarith : gross ≤ hrt), max_eq_left hgb,
          max_eq_left (by linarith : gross ≤ hrt)]
        ring

theorem sum_clamps (gross pa brt hrt : ℚ) (h1 : pa ≤ brt) (h2 : brt ≤ hrt) :
    (max pa (min gross brt) - pa) + (max brt (min gross hrt) - brt) + (max hrt gross - hrt)
      = max pa gross - pa := by
  simp only [min_def, max_def]
  split_ifs <;> linarith

theorem clamp_mono (a b l u : ℚ) (h : a ≤ b) : max l (min a u) ≤ max l (min b u) :=
  max_le_max le_rfl (min_le_min h le_rfl)

theorem calc_tax_nonneg (gross pa brt hrt : ℚ) : 0 ≤ calc_tax_annual gross pa brt hrt := by
  simp only [calc_tax_annual]
  have hA : (0:ℚ) ≤ max 0 (min gross brt - pa) := le_max_left 0 _
  have hB : (0:ℚ) ≤ max 0 (min gross hrt - brt) := le_max_left 0 _
  have hC : (0:ℚ) ≤ max 0 (gross - hrt) := le_max_left 0 _
  split_ifs <;> linarith

theorem calc_net_le_gross (gross pa brt hrt : ℚ) :
    calc_net_annual gross pa brt hrt ≤ gross := by
  have := calc_tax_nonneg gross pa brt hrt
  simp only [calc_net_annual]
  linarith

theorem calc_tax_mono (a b pa brt hrt : ℚ) (hab : a ≤ b) (h0 : 0 ≤ pa) (h1 : pa ≤ brt)
    (h2 : brt ≤ hrt) :
    calc_tax_annual a pa brt hrt ≤ calc_tax_annual b pa brt hrt := by
  rw [tax_eq_clamps a pa brt hrt h0 h1 h2, tax_eq_clamps b pa brt hrt h0 h1 h2]
  have c1 := clamp_mono a b pa brt hab
  have c2 := clamp_mono a b brt hrt hab
  have c3 := max_le_max (le_refl hrt) hab
  linarith

theorem calc_net_mono (a b pa brt hrt : ℚ) (hab : a ≤ b) (h0 : 0 ≤ pa) (h1 : pa ≤ brt)
    (h2 : brt ≤ hrt) :
    calc_net_annual a pa brt hrt ≤ calc_net_annual b pa brt hrt := by
  simp only [calc_net_annual]
  rw [tax_eq_clamps a pa brt hrt h0 h1 h2, tax_eq_clamps b pa brt hrt h0 h1 h2]
  have c1 := clamp_mono a b pa brt hab
  have c2 := clamp_mono a b brt hrt hab
  have c3 := max_le_max (le_refl hrt) hab
  have s1 := sum_clamps a pa brt hrt h1 h2
  have s2 := sum_clamps b pa brt hrt h1 h2
  have hm : max pa b - max pa a ≤ b - a := by
    simp only [max_def]
    split_ifs <;> linarith
  linarith

/-- The net is 1-Lipschitz from below: raising the gross raises the net by
at most the same amount (the tax is monotone). -/
theorem calc_net_lipschitz (a b pa brt hrt : ℚ) (hab : a ≤ b) (h0 : 0 ≤ pa)
    (h1 : pa ≤ brt) (h2 : brt ≤ hrt) :
    calc_net_annual b pa brt hrt - calc_net_annual a pa brt hrt ≤ b - a := by
  have := calc_tax_mono a b pa brt hrt hab h0 h1 h2
  simp only [calc_net_annual]
  linarith

/-- The marginal rates never exceed 45%, so the tax is bounded by 45% of
the income above the personal allowance. -/
theorem calc_tax_le (gross pa brt hrt : ℚ) (h0 : 0 ≤ pa) (h1 : pa ≤ brt) (h2 : brt ≤ hrt) :
    calc_tax_annual gross pa brt hrt ≤ (45/100) * (max pa gross - pa) := by
  rw [tax_eq_clamps gross pa brt hrt h0 h1 h2]
  have d1 : pa ≤ max pa (min gross brt) := le_max_left pa _
  have d2 : brt ≤ max brt (min gross hrt) := le_max_left brt _
  have d3 : hrt ≤ max hrt gross := le_max_left hrt _
  have s := sum_clamps gross pa brt hrt h1 h2
  linarith

theorem calc_net_nonneg (gross pa brt hrt : ℚ) (hg : 0 ≤ gross) (h0 : 0 ≤ pa)
    (h1 : pa ≤ brt) (h2 : brt ≤ hrt) : 0 ≤ calc_net_annual gross pa brt hrt := by
  have ht := calc_tax_le gross pa brt hrt h0 h1 h2
  simp only [calc_net_annual]
  rcases le_total pa gross with h | h
  · rw [max_eq_right h] at ht
    linarith
  · rw [max_eq_left h] at ht
    have := calc_tax_nonneg gross pa brt hrt
    linarith

/-! ## Bisection lemmas -/

theorem bisect_step_le (t pa brt hrt : ℚ) (lh : ℚ × ℚ) (h : lh.1 ≤ lh.2) :
    lh.1 ≤ (bisect_step t pa brt hrt lh).1 ∧
      (bisect_step t pa brt hrt lh).1 ≤ (bisect_step t pa brt hrt lh).2 ∧
      (bisect_step t pa brt hrt lh).2 ≤ lh.2 := by
  simp only [bisect_step]
  split_ifs <;> refine ⟨?_, ?_, ?_⟩ <;> dsimp only <;> linarith

theorem bisect_step_width (t pa brt hrt : ℚ) (lh : ℚ × ℚ) :
    (bisect_step t pa brt hrt lh).2 - (bisect_step t pa brt hrt lh).1
      = (lh.2 - lh.1) / 2 := by
  simp only [bisect_step]
  split_ifs <;> dsimp only <;> ring

theorem bisect_iter_le (t pa brt hrt : ℚ) (n : ℕ) (lh : ℚ × ℚ) (h : lh.1 ≤ lh.2) :
    (bisect_iter t pa brt hrt n lh).1 ≤ (bisect_iter t pa brt hrt n lh).2 := by
  induction n generalizing lh with
  | zero => exact h
  | succ n ih =>
    simp only [bisect_iter]
    exact ih _ (bisect_step_le t pa brt hrt lh h).2.1

theorem bisect_iter_bounds (t pa brt hrt : ℚ) (n : ℕ) (lh : ℚ × ℚ) (h : lh.1 ≤ lh.2) :
    lh.1 ≤ (bisect_iter t pa brt hrt n lh).1 ∧ (bisect_iter t pa brt hrt n lh).2 ≤ lh.2 := by
  induction n generalizing lh with
  | zero => exact ⟨le_refl _, le_refl _⟩
  | succ n ih =>
    simp only [bisect_iter]
    obtain ⟨s1, s2, s3⟩ := bisect_step_le t pa brt hrt lh h
    obtain ⟨i1, i2⟩ := ih (bisect_step t pa brt hrt lh) s2
    exact ⟨s1.trans i1, i2.trans s3⟩

theorem bisect_iter_width (t pa brt hrt : ℚ) (n : ℕ) (lh : ℚ × ℚ) :
    (bisect_iter t pa brt hrt n lh).2 - (bisect_iter t pa brt hrt n lh).1
      = (lh.2 - lh.1) / 2 ^ n := by
  induction n generalizing lh with
  | zero => simp [bisect_iter]
  | succ n ih =>
    simp only [bisect_iter]
    rw [ih (bisect_step t pa brt hrt lh), bisect_step_width]
    rw [pow_succ]
    ring

/-- The loop invariant of the bisection: the net at the lower end is below
the target, the net at the upper end reaches it.  No monotonicity is
needed to preserve it. -/
theorem bisect_iter_invariant (t pa brt hrt : ℚ) (n : ℕ) (lh : ℚ × ℚ)
    (hl : calc_net_annual lh.1 pa brt hrt < t) (hh : t ≤ calc_net_annual lh.2 pa brt hrt) :
    calc_net_annual (bisect_iter t pa brt hrt n lh).1 pa brt hrt < t ∧
      t ≤ calc_net_annual (bisect_iter t pa brt hrt n lh).2 pa brt hrt := by
  induction n generalizing lh with
  | zero => exact ⟨hl, hh⟩
  | succ n ih =>
    simp only [bisect_iter]
    apply ih
    · simp only [bisect_step]
      split_ifs with hc
      · exact hc
      · exact hl
    · simp only [bisect_step]
      split_ifs with hc
      · exact hh
      · exact le_of_not_lt hc

/-- When the target net exceeds what the ceiling gross can produce, every
midpoint tests below the target, so the upper end of the interval never
moves. -/
theorem bisect_iter_high_const (t pa brt hrt : ℚ) (h0 : 0 ≤ pa) (h1 : pa ≤ brt)
    (h2 : brt ≤ hrt) (hceil : calc_net_annual 2000000 pa brt hrt < t) (n : ℕ) (lh : ℚ × ℚ)
    (hl0 : 0 ≤ lh.1) (hle : lh.1 ≤ lh.2) (hh2 : lh.2 = 2000000) :
    (bisect_iter t pa brt hrt n lh).2 = 2000000 := by
  induction n generalizing lh with
  | zero => exact hh2
  | succ n ih =>
    have hl2e6 : lh.1 ≤ 2000000 := hh2 ▸ hle
    have hmid_le : (lh.1 + lh.2) / 2 ≤ 2000000 := by rw [hh2]; linarith
    have hmid0 : 0 ≤ (lh.1 + lh.2) / 2 := by rw [hh2]; linarith
    have hnet : calc_net_annual ((lh.1 + lh.2) / 2) pa brt hrt < t :=
      lt_of_le_of_lt (calc_net_mono _ 2000000 pa brt hrt hmid_le h0 h1 h2) hceil
    have hstep : bisect_step t pa brt hrt lh = ((lh.1 + lh.2) / 2, lh.2) := by
      simp only [bisect_step]
      rw [if_pos hnet]
    simp only [bisect_iter]
    rw [hstep]
    exact ih ((lh.1 + lh.2) / 2, lh.2) hmid0 (by dsimp only; rw [hh2]; linarith) hh2

theorem calc_net_zero (pa brt hrt : ℚ) : calc_net_annual 0 pa brt hrt = 0 := by
  simp [calc_net_annual, calc_tax_annual]

theorem required_gross_nonneg (t pa brt hrt : ℚ) :
    0 ≤ required_gross_annual_for_net_annual t pa brt hrt := by
  unfold required_gross_annual_for_net_annual
  split_ifs with h
  · exact le_refl 0
  · have hle := bisect_iter_le t pa brt hrt 50 (0, 2000000) (by norm_num)
    have hb := bisect_iter_bounds t pa brt hrt 50 (0, 2000000) (by norm_num)
    exact le_trans hb.1 hle

theorem required_gross_le (t pa brt hrt : ℚ) :
    required_gross_annual_for_net_annual t pa brt hrt ≤ 2000000 := by
  unfold required_gross_annual_for_net_annual
  split_ifs with h
  · norm_num
  · exact (bisect_iter_bounds t pa brt hrt 50 (0, 2000000) (by norm_num)).2

theorem required_gross_saturates (t pa brt hrt : ℚ) (h0 : 0 ≤ pa) (h1 : pa ≤ brt)
    (h2 : brt ≤ hrt) (hceil : calc_net_annual 2000000 pa brt hrt < t) :
    required_gross_annual_for_net_annual t pa brt hrt = 2000000 := by
  have h2e6 : 0 ≤ calc_net_annual 2000000 pa brt hrt :=
    calc_net_nonneg 2000000 pa brt hrt (by norm_num) h0 h1 h2
  unfold required_gross_annual_for_net_annual
  rw [if_neg (not_le.mpr (lt_of_le_of_lt h2e6 hceil))]
  exact bisect_iter_high_const t pa brt hrt h0 h1 h2 hceil 50 (0, 2000000)
    (le_refl 0) (by norm_num) rfl

/-- The inverse round-trip: after 50 bisection steps on an interval of
width 2,000,000 the net at the returned gross is within 2000000 / 2 ^ 50
(far below a cent) of the target, provided the target is achievable. -/
theorem required_roundtrip (t pa brt hrt : ℚ) (ht : 0 ≤ t) (h0 : 0 ≤ pa) (h1 : pa ≤ brt)
    (h2 : brt ≤ hrt) (hach : t ≤ calc_net_annual 2000000 pa brt hrt) :
    |calc_net_annual (required_gross_annual_for_net_annual t pa brt hrt) pa brt hrt - t|
      ≤ 1/100 := by
  unfold required_gross_annual_for_net_annual
  split_ifs with hle
  · have : t = 0 := le_antisymm hle ht
    rw [this, calc_net_zero]
    norm_num
  · have htpos : 0 < t := lt_of_not_le hle
    have hl0 : calc_net_annual (0, (2000000:ℚ)).1 pa brt hrt < t := by
      rw [show ((0:ℚ), (2000000:ℚ)).1 = 0 from rfl, calc_net_zero]
      exact htpos
    have hh0 : t ≤ calc_net_annual (0, (2000000:ℚ)).2 pa brt hrt := hach
    obtain ⟨hinvl, hinvh⟩ := bisect_iter_invariant t pa brt hrt 50 (0, 2000000) hl0 hh0
    have hwid := bisect_iter_width t pa brt hrt 50 (0, 2000000)
    have hle2 := bisect_iter_le t pa brt hrt 50 (0, 2000000) (by norm_num)
    have hlip := calc_net_lipschitz (bisect_iter t pa brt hrt 50 (0, 2000000)).1
      (bisect_iter t pa brt hrt 50 (0, 2000000)).2 pa brt hrt hle2 h0 h1 h2
    have hsmall : ((0:ℚ), (2000000:ℚ)).2 - ((0:ℚ), (2000000:ℚ)).1 = 2000000 := by norm_num
    rw [hsmall] at hwid
    have hbound : (2000000:ℚ) / 2 ^ 50 ≤ 1/100 := by norm_num
    rw [abs_le]
    constructor
    · linarith
    · linarith

/-- The target net is a lower bound for the returned gross (the net never
exceeds the gross). -/
theorem required_ge_target (t pa brt hrt : ℚ) (ht : 0 < t)
    (hach : t ≤ calc_net_annual 2000000 pa brt hrt) :
    t ≤ required_gross_annual_for_net_annual t pa brt hrt := by
  unfold required_gross_annual_for_net_annual
  rw [if_neg (not_le.mpr ht)]
  have hl0 : calc_net_annual (0, (2000000:ℚ)).1 pa brt hrt < t := by
    rw [show ((0:ℚ), (2000000:ℚ)).1 = 0 from rfl, calc_net_zero]
    exact ht
  obtain ⟨_, hinvh⟩ := bisect_iter_invariant t pa brt hrt 50 (0, 2000000) hl0 hach
  exact hinvh.trans (calc_net_le_gross _ pa brt hrt)

/-- Any gross whose net clears the target by more than the final interval
width is an upper bound for the returned gross. -/
theorem required_lt_of_net_ge (t pa brt hrt B : ℚ) (ht : 0 < t) (h0 : 0 ≤ pa)
    (h1 : pa ≤ brt) (h2 : brt ≤ hrt) (hach : t ≤ calc_net_annual 2000000 pa brt hrt)
    (hB : t + 2000000 / 2 ^ 50 ≤ calc_net_annual B pa brt hrt) :
    required_gross_annual_for_net_annual t pa brt hrt < B := by
  unfold required_gross_annual_for_net_annual
  rw [if_neg (not_le.mpr ht)]
  have hl0 : calc_net_annual (0, (2000000:ℚ)).1 pa brt hrt < t := by
    rw [show ((0:ℚ), (2000000:ℚ)).1 = 0 from rfl, calc_net_zero]
    exact ht
  obtain ⟨hinvl, hinvh⟩ := bisect_iter_invariant t pa brt hrt 50 (0, 2000000) hl0 hach
  have hwid := bisect_iter_width t pa brt hrt 50 (0, 2000000)
  have hle2 := bisect_iter_le t pa brt hrt 50 (0, 2000000) (by norm_num)
  have hlip := calc_net_lipschitz (bisect_iter t pa brt hrt 50 (0, 2000000)).1
    (bisect_iter t pa brt hrt 50 (0, 2000000)).2 pa brt hrt hle2 h0 h1 h2
  have hsmall : ((0:ℚ), (2000000:ℚ)).2 - ((0:ℚ), (2000000:ℚ)).1 = 2000000 := by norm_num
  rw [hsmall] at hwid
  by_contra hcon
  push_neg at hcon
  have := calc_net_mono B (bisect_iter t pa brt hrt 50 (0, 2000000)).2 pa brt hrt hcon h0 h1 h2
  linarith

/-! ## The simulation

simulate_investment (source lines 61-167) is a monthly loop.  The embedding
threads an explicit state through a per-month step function; the Gaussian
return draw of each month is an input.  Dates are represented by their
month offset from start_date. -/

/-- The parameters of simulate_investment.  monthly_mean_return carries the
real-valued prelude (1 + annual_return_rate) ** (1/12) - 1 of source line
89, and sqrt_twelve the constant 12 ** 0.5 of line 90; both are irrational
in general, so the embedding takes their values as parameters. -/
structure SimParams where
  initial_deposit : ℚ
  monthly_deposit : ℚ
  deposit_growth_rate : ℚ
  monthly_mean_return : ℚ
  annual_inflation_rate : ℚ
  annual_withdrawal_rate : ℚ
  target_annual_living_cost : ℚ
  years : ℤ
  annual_volatility : ℚ
  sqrt_twelve : ℚ

/-- The mutable loop state of simulate_investment. -/
structure SimState where
  portfolio_value : ℚ
  withdrawing : Bool
  current_monthly_deposit : ℚ
  start_withdrawal_month : Option ℕ
  total_withdrawn : ℚ

/-- The values recorded (or observable) in one loop iteration:
portfolio_before_withdrawal is portfolio_value right after the return is
applied (line 140), portfolio_recorded the value appended to the result
list (line 164). -/
structure StepLog where
  deposit_added : ℚ
  portfolio_before_withdrawal : ℚ
  withdrawal_amt : ℚ
  portfolio_recorded : ℚ

/-- State before the first iteration (lines 92-101). -/
def init_state (P : SimParams) : SimState :=
  ⟨P.initial_deposit, false, P.monthly_deposit, none, 0⟩

/-- The inflation-adjusted annual living cost for month m (line 111);
the year index is m / 12 (line 107). -/
def inflated_annual_cost (P : SimParams) (m : ℕ) : ℚ :=
  P.target_annual_living_cost * (1 + P.annual_inflation_rate) ^ (m / 12)

/-- The gross monthly withdrawal needed to net the living cost (line 116). -/
def gross_needed_per_month (P : SimParams) (m : ℕ) : ℚ :=
  required_gross_annual_for_net_annual (inflated_annual_cost P m)
    (get_tax_brackets_for_year (m / 12) P.annual_inflation_rate).1
    (get_tax_brackets_for_year (m / 12) P.annual_inflation_rate).2.1
    (get_tax_brackets_for_year (m / 12) P.annual_inflation_rate).2.2 / 12

/-- One iteration of the loop body (lines 103-165) for month m with return
draw r: retirement check (125-129), deposit while not withdrawing with
growth guarded by m > 0 (131-136), multiplicative return (138-140),
withdrawal of the needed gross if affordable, otherwise nothing (142-158),
bookkeeping (160-165). -/
def simStep (P : SimParams) (m : ℕ) (r : ℚ) (s : SimState) : SimState × StepLog :=
  let g := gross_needed_per_month P m
  let withdrawing1 : Bool := s.withdrawing || decide (g ≤ s.portfolio_value)
  let start1 : Option ℕ :=
    if s.withdrawing = false ∧ g ≤ s.portfolio_value then some m else s.start_withdrawal_month
  let deposit_added : ℚ := if withdrawing1 = false then s.current_monthly_deposit else 0
  let pv1 := s.portfolio_value + deposit_added
  let dep1 := if withdrawing1 = false ∧ 0 < m then
      s.current_monthly_deposit * (1 + P.deposit_growth_rate)
    else s.current_monthly_deposit
  let pv2 := pv1 * (1 + r)
  let wamt : ℚ := if withdrawing1 = true then (if g ≤ pv2 then min g pv2 else 0) else 0
  let pv3 := pv2 - wamt
  (⟨pv3, withdrawing1, dep1, start1, s.total_withdrawn + wamt⟩,
   ⟨deposit_added, pv2, wamt, pv3⟩)

/-- The loop state before iteration m (so simStateAt P ret 0 = init_state P). -/
def simStateAt (P : SimParams) (ret : ℕ → ℚ) : ℕ → SimState
  | 0 => init_state P
  | m + 1 => (simStep P m (ret m) (simStateAt P ret m)).1

/-- The observables of iteration m. -/
def simLogAt (P : SimParams) (ret : ℕ → ℚ) (m : ℕ) : StepLog :=
  (simStep P m (ret m) (simStateAt P ret m)).2

/-- total_months = years * 12 (line 88); a negative product gives an empty
loop, as range does in the source. -/
def total_months (P : SimParams) : ℕ := (P.years * 12).toNat

/-- The return value of simulate_investment (line 167). -/
structure SimResult where
  dates_list : List ℕ
  portfolio_values : List ℚ
  withdrawal_values : List ℚ
  start_withdrawal_date : Option ℕ
  total_withdrawn : ℚ

/-- simulate_investment as a function of the stream of monthly return
draws. -/
def simulate_run (P : SimParams) (ret : ℕ → ℚ) : SimResult :=
  { dates_list := List.range (total_months P)
    portfolio_values :=
      (List.range (total_months P)).map fun m => (simLogAt P ret m).portfolio_recorded
    withdrawal_values :=
      (List.range (total_months P)).map fun m => (simLogAt P ret m).withdrawal_amt
    start_withdrawal_date := (simStateAt P ret (total_months P)).start_withdrawal_month
    total_withdrawn := (simStateAt P ret (total_months P)).total_withdrawn }

/-- random.gauss(mu, sigma) produces mu + sigma * z for a standard normal
draw z. -/
def gauss (mu sigma z : ℚ) : ℚ := mu + sigma * z

/-- monthly_std = annual_volatility / 12 ** 0.5 (line 90). -/
def monthly_std (P : SimParams) : ℚ := P.annual_volatility / P.sqrt_twelve

/-- The stream of monthly return draws induced by a stream z of standard
normal draws (line 139). -/
def gauss_stream (P : SimParams) (z : ℕ → ℚ) : ℕ → ℚ :=
  fun m => gauss P.monthly_mean_return (monthly_std P) (z m)

/-- simulate_investment as a function of the underlying standard normal
draws. -/
def simulate_investment (P : SimParams) (z : ℕ → ℚ) : SimResult :=
  simulate_run P (gauss_stream P z)

/-- The success test of run_monte_carlo (line 287).  The and short-circuits
in the source, so portfolio_vals[-1] is only read when withdrawals
started; an IndexError (impossible there, since a set withdrawal date
implies a non-empty list) would surface as none. -/
def run_success (P : SimParams) (z : ℕ → ℚ) : Option Bool :=
  if (simulate_investment P z).start_withdrawal_date.isSome = false then some false
  else ((simulate_investment P z).portfolio_values.getLast?).map fun last => decide (0 < last)

/-- run_monte_carlo (lines 256-289); none models an untyped Python
exception (ZeroDivisionError when num_simulations = 0). -/
def run_monte_carlo (P : SimParams) (Z : ℕ → ℕ → ℚ) (num_simulations : ℤ) : Option ℚ :=
  let results := (List.range num_simulations.toNat).map fun i => run_success P (Z i)
  if results.any fun r => r.isNone then none
  else if num_simulations = 0 then none
  else some (((results.countP fun r => r == some true : ℕ) : ℚ) / (num_simulations : ℚ) * 100)

/-- simulate_average_simulation (lines 170-212); none models the
ZeroDivisionError hit when num_simulations = 0 and the per-month lists are
non-empty; the dates component stays None when no simulation ran. -/
def simulate_average_simulation (P : SimParams) (Z : ℕ → ℕ → ℚ) (num_simulations : ℤ) :
    Option (Option (List ℕ) × List ℚ × List ℚ) :=
  if num_simulations = 0 ∧ 0 < total_months P then none
  else
    some (if num_simulations.toNat = 0 then none else some (List.range (total_months P)),
      (List.range (total_months P)).map fun m =>
        (((List.range num_simulations.toNat).map fun i =>
          (simLogAt P (gauss_stream P (Z i)) m).portfolio_recorded).sum) / (num_simulations : ℚ),
      (List.range (total_months P)).map fun m =>
        (((List.range num_simulations.toNat).map fun i =>
          (simLogAt P (gauss_stream P (Z i)) m).withdrawal_amt).sum) / (num_simulations : ℚ))

/-! ## Step characterizations

The withdrawing flag tested by the deposit and withdrawal phases of
iteration m is the one already updated by the retirement check, i.e. the
flag of the state after iteration m. -/

theorem simStateAt_succ_withdrawing (P : SimParams) (ret : ℕ → ℚ) (m : ℕ) :
    (simStateAt P ret (m + 1)).withdrawing
      = ((simStateAt P ret m).withdrawing
          || decide (gross_needed_per_month P m ≤ (simStateAt P ret m).portfolio_value)) := rfl

theorem simLogAt_deposit_added (P : SimParams) (ret : ℕ → ℚ) (m : ℕ) :
    (simLogAt P ret m).deposit_added
      = if (simStateAt P ret (m + 1)).withdrawing = false
        then (simStateAt P ret m).current_monthly_deposit else 0 := rfl

theorem simLogAt_withdrawal (P : SimParams) (ret : ℕ → ℚ) (m : ℕ) :
    (simLogAt P ret m).withdrawal_amt
      = if (simStateAt P ret (m + 1)).withdrawing = true
        then (if gross_needed_per_month P m ≤ (simLogAt P ret m).portfolio_before_withdrawal
              then min (gross_needed_per_month P m)
                ((simLogAt P ret m).portfolio_before_withdrawal)
              else 0)
        else 0 := rfl

theorem simLogAt_before_withdrawal (P : SimParams) (ret : ℕ → ℚ) (m : ℕ) :
    (simLogAt P ret m).portfolio_before_withdrawal
      = ((simStateAt P ret m).portfolio_value + (simLogAt P ret m).deposit_added)
          * (1 + ret m) := rfl

theorem simStateAt_succ_deposit (P : SimParams) (ret : ℕ → ℚ) (m : ℕ) :
    (simStateAt P ret (m + 1)).current_monthly_deposit
      = if (simStateAt P ret (m + 1)).withdrawing = false ∧ 0 < m
        then (simStateAt P ret m).current_monthly_deposit * (1 + P.deposit_growth_rate)
        else (simStateAt P ret m).current_monthly_deposit := rfl

/-- Once the withdrawing flag is set it survives every later step. -/
theorem withdrawing_mono (P : SimParams) (ret : ℕ → ℚ) (m m' : ℕ) (h : m ≤ m')
    (hw : (simStateAt P ret m).withdrawing = true) :
    (simStateAt P ret m').withdrawing = true := by
  induction m' with
  | zero =>
    have : m = 0 := Nat.le_zero.mp h
    rwa [this] at hw
  | succ n ih =>
    rcases Nat.lt_or_ge m (n + 1) with hlt | hge
    · have hn : (simStateAt P ret n).withdrawing = true := ih (Nat.lt_succ_iff.mp hlt)
      rw [simStateAt_succ_withdrawing, hn, Bool.true_or]
    · have : m = n + 1 := le_antisymm h hge
      rwa [this] at hw

/-- While the run is still accumulating through iteration m, the deposit
amount has grown once per iteration except iteration 0 (the growth is
guarded by m > 0 in the source). -/
theorem current_deposit_of_accumulating (P : SimParams) (ret : ℕ → ℚ) (m : ℕ)
    (h : (simStateAt P ret m).withdrawing = false) :
    (simStateAt P ret m).current_monthly_deposit
      = P.monthly_deposit * (1 + P.deposit_growth_rate) ^ (m - 1) := by
  induction m with
  | zero => simp [simStateAt, init_state]
  | succ n ih =>
    have hn : (simStateAt P ret n).withdrawing = false := by
      cases hcase : (simStateAt P ret n).withdrawing
      · rfl
      · rw [withdrawing_mono P ret n (n + 1) (Nat.le_succ n) hcase] at h
        exact absurd h (by simp)
    rw [simStateAt_succ_deposit, ih hn]
    rcases Nat.eq_zero_or_pos n with rfl | hm
    · rw [if_neg (fun hc => absurd hc.2 (lt_irrefl 0))]
    · rw [if_pos ⟨h, hm⟩, mul_assoc, ← pow_succ, Nat.succ_sub_one, Nat.sub_add_cancel hm]

theorem withdrawing_false_of_succ (P : SimParams) (ret : ℕ → ℚ) (m : ℕ)
    (h : (simStateAt P ret (m + 1)).withdrawing = false) :
    (simStateAt P ret m).withdrawing = false := by
  cases hcase : (simStateAt P ret m).withdrawing
  · rfl
  · rw [withdrawing_mono P ret m (m + 1) (Nat.le_succ m) hcase] at h
    exact absurd h (by simp)

theorem simStateAt_succ_portfolio (P : SimParams) (ret : ℕ → ℚ) (m : ℕ) :
    (simStateAt P ret (m + 1)).portfolio_value
      = (simLogAt P ret m).portfolio_before_withdrawal - (simLogAt P ret m).withdrawal_amt := rfl

theorem withdrawal_zero_of_accumulating (P : SimParams) (ret : ℕ → ℚ) (m : ℕ)
    (h : (simStateAt P ret (m + 1)).withdrawing = false) :
    (simLogAt P ret m).withdrawal_amt = 0 := by
  rw [simLogAt_withdrawal, if_neg (by simp [h])]

theorem deposit_added_of_accumulating (P : SimParams) (ret : ℕ → ℚ) (m : ℕ)
    (h : (simStateAt P ret (m + 1)).withdrawing = false) :
    (simLogAt P ret m).deposit_added = (simStateAt P ret m).current_monthly_deposit := by
  rw [simLogAt_deposit_added, if_pos h]

theorem deposit_added_zero_of_withdrawing (P : SimParams) (ret : ℕ → ℚ) (m : ℕ)
    (h : (simStateAt P ret (m + 1)).withdrawing = true) :
    (simLogAt P ret m).deposit_added = 0 := by
  rw [simLogAt_deposit_added, if_neg (by simp [h])]

/-! ## Bounds on the needed gross -/

theorem gross_needed_nonneg (P : SimParams) (m : ℕ) : 0 ≤ gross_needed_per_month P m := by
  unfold gross_needed_per_month
  exact div_nonneg (required_gross_nonneg _ _ _ _) (by norm_num)

theorem withdrawal_nonneg (P : SimParams) (ret : ℕ → ℚ) (m : ℕ) :
    0 ≤ (simLogAt P ret m).withdrawal_amt := by
  rw [simLogAt_withdrawal]
  split_ifs with h1 h2
  · exact le_min (gross_needed_nonneg P m) ((gross_needed_nonneg P m).trans h2)
  · exact le_refl 0
  · exact le_refl 0

theorem withdrawal_le_before (P : SimParams) (ret : ℕ → ℚ) (m : ℕ) :
    (simLogAt P ret m).withdrawal_amt
      ≤ max 0 ((simLogAt P ret m).portfolio_before_withdrawal) := by
  rw [simLogAt_withdrawal]
  split_ifs with h1 h2
  · exact le_max_of_le_right (min_le_right _ _)
  · exact le_max_left 0 _
  · exact le_max_left 0 _

/-- With zero inflation the brackets stay at the base cutoffs. -/
theorem brackets_zero_inflation (y : ℕ) :
    get_tax_brackets_for_year y 0 = (12570, 50270, 125140) := by
  simp [get_tax_brackets_for_year, bracket_factor, BASE_PERSONAL_ALLOWANCE,
    BASE_BASIC_RATE_LIMIT, BASE_HIGHER_RATE_LIMIT]

theorem net_at_2000000 : calc_net_annual 2000000 12570 50270 125140 = 1118825 := by
  norm_num [calc_net_annual, calc_tax_annual, min_def, max_def]

theorem net_at_36000 : calc_net_annual 36000 12570 50270 125140 = 31314 := by
  norm_num [calc_net_annual, calc_tax_annual, min_def, max_def]

/-- For a target living cost of 30000 in a zero-inflation run, the needed
gross per month is between 2500 and 3000 (the exact value is a 50-digit
dyadic near 2863.1). -/
theorem gross_bounds_target30000 (P : SimParams) (m : ℕ)
    (hinfl : P.annual_inflation_rate = 0) (htarget : P.target_annual_living_cost = 30000) :
    2500 ≤ gross_needed_per_month P m ∧ gross_needed_per_month P m ≤ 3000 := by
  have hcost : inflated_annual_cost P m = 30000 := by
    simp [inflated_annual_cost, hinfl, htarget]
  unfold gross_needed_per_month
  rw [hcost, hinfl, brackets_zero_inflation]
  dsimp only
  have hach : (30000:ℚ) ≤ calc_net_annual 2000000 12570 50270 125140 := by
    rw [net_at_2000000]
    norm_num
  have hge := required_ge_target 30000 12570 50270 125140 (by norm_num) hach
  have hlt := required_lt_of_net_ge 30000 12570 50270 125140 36000 (by norm_num)
    (by norm_num) (by norm_num) (by norm_num) hach (by rw [net_at_36000]; norm_num)
  constructor
  · linarith
  · linarith

/-- For a target living cost of 10^9 in a zero-inflation run the bisection
saturates, so the needed gross per month is 2000000 / 12. -/
theorem gross_saturates_target1e9 (P : SimParams) (m : ℕ)
    (hinfl : P.annual_inflation_rate = 0)
    (htarget : P.target_annual_living_cost = 1000000000) :
    gross_needed_per_month P m = 2000000 / 12 := by
  have hcost : inflated_annual_cost P m = 1000000000 := by
    simp [inflated_annual_cost, hinfl, htarget]
  unfold gross_needed_per_month
  rw [hcost, hinfl, brackets_zero_inflation]
  dsimp only
  rw [required_gross_saturates 1000000000 12570 50270 125140 (by norm_num) (by norm_num)
    (by norm_num) (by rw [net_at_2000000]; norm_num)]

/-- Recorded withdrawal values are the per-iteration withdrawal amounts. -/
theorem simulate_run_withdrawal_get (P : SimParams) (ret : ℕ → ℚ) (m : ℕ)
    (hm : m < total_months P) :
    (simulate_run P ret).withdrawal_values[m]? = some ((simLogAt P ret m).withdrawal_amt) := by
  simp [simulate_run, List.getElem?_map, List.getElem?_range, hm]

/-- Shared content of the withdrawal rule: in any period whose (updated)
state is withdrawing, the recorded withdrawal is the needed gross when the
post-return portfolio covers it, and 0 otherwise. -/
theorem withdrawal_value_rule (P : SimParams) (ret : ℕ → ℚ) (m : ℕ)
    (hm : m < total_months P)
    (hw : (simStateAt P ret (m + 1)).withdrawing = true) :
    (simulate_run P ret).withdrawal_values[m]?
      = some (if gross_needed_per_month P m ≤ (simLogAt P ret m).portfolio_before_withdrawal
          then gross_needed_per_month P m else 0) := by
  rw [simulate_run_withdrawal_get P ret m hm, simLogAt_withdrawal, if_pos hw]
  congr 1
  split_ifs with h
  · exact min_eq_left h
  · rfl

/-! ## Concrete runs

Parameter sets for concrete runs.  All of them use zero inflation (so the
brackets stay at the base cutoffs and the living cost is flat).  Where the
run needs a particular return draw, either annual_volatility is 0 and the
draw is the monthly mean itself, or the draw is an explicit Gaussian
outcome (the normal distribution has full support, so any rational sample
is attainable); sqrt_twelve is a rational stand-in for 12 ** 0.5 and is
irrelevant whenever annual_volatility = 0. -/

/-- A portfolio of 3000 that just clears the retirement threshold for a
30000 living cost and then loses 90% in the first month. -/
def C1_params : SimParams :=
  { initial_deposit := 3000
    monthly_deposit := 100
    deposit_growth_rate := 1/1000
    monthly_mean_return := -9/10
    annual_inflation_rate := 0
    annual_withdrawal_rate := 4/100
    target_annual_living_cost := 30000
    years := 1
    annual_volatility := 0
    sqrt_twelve := 7/2 }

def c1_ret : ℕ → ℚ := fun _ => -9/10

theorem C1_flag1 : (simStateAt C1_params c1_ret 1).withdrawing = true := by
  have h3000 := (gross_bounds_target30000 C1_params 0 rfl rfl).2
  rw [simStateAt_succ_withdrawing]
  show (false || decide (gross_needed_per_month C1_params 0 ≤ (3000:ℚ))) = true
  rw [Bool.false_or, decide_eq_true_eq]
  exact h3000

theorem C1_pbefore : (simLogAt C1_params c1_ret 0).portfolio_before_withdrawal = 300 := by
  rw [simLogAt_before_withdrawal, deposit_added_zero_of_withdrawing C1_params c1_ret 0 C1_flag1]
  have hp : (simStateAt C1_params c1_ret 0).portfolio_value = 3000 := rfl
  have hr : c1_ret 0 = -9/10 := rfl
  rw [hp, hr]
  norm_num

theorem C1_withdrawal0 : (simLogAt C1_params c1_ret 0).withdrawal_amt = 0 := by
  have h2500 := (gross_bounds_target30000 C1_params 0 rfl rfl).1
  rw [simLogAt_withdrawal, if_pos C1_flag1,
    if_neg (by rw [C1_pbefore]; exact not_le.mpr (lt_of_lt_of_le (by norm_num) h2500))]

/-- C1: in every Retired period the recorded withdrawal is the needed
gross if the post-return portfolio covers it and 0 otherwise (amended:
the source withdraws nothing, not the remaining balance, when the
portfolio falls short of the needed gross). -/
theorem C1_retired_withdrawal_rule (P : SimParams) (ret : ℕ → ℚ) (m : ℕ)
    (hm : m < total_months P)
    (hw : (simStateAt P ret (m + 1)).withdrawing = true) :
    (simulate_run P ret).withdrawal_values[m]?
      = some (if gross_needed_per_month P m ≤ (simLogAt P ret m).portfolio_before_withdrawal
          then gross_needed_per_month P m else 0) :=
  withdrawal_value_rule P ret m hm hw

theorem C1_retired_withdrawal_rule_witness :
    0 < total_months C1_params ∧ (simStateAt C1_params c1_ret (0 + 1)).withdrawing = true ∧
      (simulate_run C1_params c1_ret).withdrawal_values[0]?
        = some (if gross_needed_per_month C1_params 0
              ≤ (simLogAt C1_params c1_ret 0).portfolio_before_withdrawal
            then gross_needed_per_month C1_params 0 else 0) :=
  ⟨by decide, C1_flag1, C1_retired_withdrawal_rule C1_params c1_ret 0 (by decide) C1_flag1⟩

/-- C1 counterexample: a Retired period with a positive portfolio smaller
than the needed gross records withdrawal 0, not min(needed, portfolio). -/
theorem C1_min_formula_fails :
    (simStateAt C1_params c1_ret 1).withdrawing = true ∧
      (simLogAt C1_params c1_ret 0).withdrawal_amt = 0 ∧
      0 < (simLogAt C1_params c1_ret 0).portfolio_before_withdrawal ∧
      (simLogAt C1_params c1_ret 0).withdrawal_amt
        ≠ min (gross_needed_per_month C1_params 0)
            ((simLogAt C1_params c1_ret 0).portfolio_before_withdrawal) := by
  have h2500 := (gross_bounds_target30000 C1_params 0 rfl rfl).1
  refine ⟨C1_flag1, C1_withdrawal0, ?_, ?_⟩
  · rw [C1_pbefore]
    norm_num
  · rw [C1_withdrawal0, C1_pbefore, min_eq_right (by linarith : (300:ℚ) ≤
      gross_needed_per_month C1_params 0)]
    norm_num

/-- A portfolio of 1000000, far above the threshold, retiring at month 0. -/
def C3_params : SimParams :=
  { initial_deposit := 1000000
    monthly_deposit := 100
    deposit_growth_rate := 1/1000
    monthly_mean_return := 0
    annual_inflation_rate := 0
    annual_withdrawal_rate := 4/100
    target_annual_living_cost := 30000
    years := 1
    annual_volatility := 0
    sqrt_twelve := 7/2 }

def c3_ret : ℕ → ℚ := fun _ => 0

theorem C3_flag0 : (simStateAt C3_params c3_ret 0).withdrawing = false := rfl

theorem C3_flag1 : (simStateAt C3_params c3_ret 1).withdrawing = true := by
  have h3000 := (gross_bounds_target30000 C3_params 0 rfl rfl).2
  rw [simStateAt_succ_withdrawing]
  show (false || decide (gross_needed_per_month C3_params 0 ≤ (1000000:ℚ))) = true
  rw [Bool.false_or, decide_eq_true_eq]
  linarith

theorem C3_pbefore : (simLogAt C3_params c3_ret 0).portfolio_before_withdrawal = 1000000 := by
  rw [simLogAt_before_withdrawal, deposit_added_zero_of_withdrawing C3_params c3_ret 0 C3_flag1]
  have hp : (simStateAt C3_params c3_ret 0).portfolio_value = 1000000 := rfl
  have hr : c3_ret 0 = 0 := rfl
  rw [hp, hr]
  norm_num

/-- C3 (amended): in the very period in which the run transitions from
Accumulating to Retired, the withdrawal rule already applies - the
withdrawal is not skipped. -/
theorem C3_transition_withdrawal (P : SimParams) (ret : ℕ → ℚ) (m : ℕ)
    (hm : m < total_months P)
    (hb : (simStateAt P ret m).withdrawing = false)
    (ha : (simStateAt P ret (m + 1)).withdrawing = true) :
    (simulate_run P ret).withdrawal_values[m]?
      = some (if gross_needed_per_month P m ≤ (simLogAt P ret m).portfolio_before_withdrawal
          then gross_needed_per_month P m else 0) :=
  withdrawal_value_rule P ret m hm ha

theorem C3_transition_withdrawal_witness :
    0 < total_months C3_params ∧ (simStateAt C3_params c3_ret 0).withdrawing = false ∧
      (simStateAt C3_params c3_ret (0 + 1)).withdrawing = true ∧
      (simulate_run C3_params c3_ret).withdrawal_values[0]?
        = some (if gross_needed_per_month C3_params 0
              ≤ (simLogAt C3_params c3_ret 0).portfolio_before_withdrawal
            then gross_needed_per_month C3_params 0 else 0) :=
  ⟨by decide, C3_flag0, C3_flag1,
    C3_transition_withdrawal C3_params c3_ret 0 (by decide) C3_flag0 C3_flag1⟩

/-- C3 counterexample: a run that transitions at month 0 and records a
positive withdrawal (the full needed gross) in that same month. -/
theorem C3_withdrawal_in_transition_period :
    (simStateAt C3_params c3_ret 0).withdrawing = false ∧
      (simStateAt C3_params c3_ret 1).withdrawing = true ∧
      (simulate_run C3_params c3_ret).withdrawal_values[0]?
        = some (gross_needed_per_month C3_params 0) ∧
      gross_needed_per_month C3_params 0 ≠ 0 := by
  have hb := gross_bounds_target30000 C3_params 0 rfl rfl
  refine ⟨C3_flag0, C3_flag1, ?_, ?_⟩
  · rw [withdrawal_value_rule C3_params c3_ret 0 (by decide) C3_flag1, C3_pbefore,
      if_pos (by linarith : gross_needed_per_month C3_params 0 ≤ (1000000:ℚ))]
  · exact ne_of_gt (lt_of_lt_of_le (by norm_num) hb.1)

/-- A run that never retires (the living-cost target is a billion), with a
100% monthly deposit growth rate to expose the growth bookkeeping. -/
def C4_params : SimParams :=
  { initial_deposit := 1000
    monthly_deposit := 100
    deposit_growth_rate := 1
    monthly_mean_return := 0
    annual_inflation_rate := 0
    annual_withdrawal_rate := 4/100
    target_annual_living_cost := 1000000000
    years := 1
    annual_volatility := 0
    sqrt_twelve := 7/2 }

def c4_ret : ℕ → ℚ := fun _ => 0

theorem C4_flag1 : (simStateAt C4_params c4_ret 1).withdrawing = false := by
  rw [simStateAt_succ_withdrawing]
  show (false || decide (gross_needed_per_month C4_params 0 ≤ (1000:ℚ))) = false
  rw [Bool.false_or]
  apply decide_eq_false
  rw [gross_saturates_target1e9 C4_params 0 rfl rfl]
  norm_num

theorem C4_portfolio1 : (simStateAt C4_params c4_ret 1).portfolio_value = 1100 := by
  rw [simStateAt_succ_portfolio, withdrawal_zero_of_accumulating C4_params c4_ret 0 C4_flag1,
    simLogAt_before_withdrawal, deposit_added_of_accumulating C4_params c4_ret 0 C4_flag1]
  have hp : (simStateAt C4_params c4_ret 0).portfolio_value = 1000 := rfl
  have hd : (simStateAt C4_params c4_ret 0).current_monthly_deposit = 100 := rfl
  have hr : c4_ret 0 = 0 := rfl
  rw [hp, hd, hr]
  norm_num

theorem C4_flag2 : (simStateAt C4_params c4_ret 2).withdrawing = false := by
  rw [simStateAt_succ_withdrawing, C4_flag1, C4_portfolio1, Bool.false_or]
  apply decide_eq_false
  rw [gross_saturates_target1e9 C4_params 1 rfl rfl]
  norm_num

/-- C4 (amended): while the run is still Accumulating in period m, the
deposit added is monthly_deposit * (1 + deposit_growth_rate) ^ (m - 1)
with truncated subtraction - the growth step is skipped in period 0, so
the exponent lags the period index by one. -/
theorem C4_deposit_added_formula (P : SimParams) (ret : ℕ → ℚ) (m : ℕ)
    (hm : m < total_months P)
    (hacc : (simStateAt P ret (m + 1)).withdrawing = false) :
    (simLogAt P ret m).deposit_added
      = P.monthly_deposit * (1 + P.deposit_growth_rate) ^ (m - 1) := by
  rw [deposit_added_of_accumulating P ret m hacc]
  exact current_deposit_of_accumulating P ret m (withdrawing_false_of_succ P ret m hacc)

theorem C4_deposit_added_formula_witness :
    1 < total_months C4_params ∧ (simStateAt C4_params c4_ret (1 + 1)).withdrawing = false ∧
      (simLogAt C4_params c4_ret 1).deposit_added
        = C4_params.monthly_deposit * (1 + C4_params.deposit_growth_rate) ^ (1 - 1) :=
  ⟨by decide, C4_flag2, C4_deposit_added_formula C4_params c4_ret 1 (by decide) C4_flag2⟩

/-- C4 counterexample: in accumulating period 1 the deposit added is still
the original 100, not monthly_deposit * (1 + growth) ^ 1 = 200. -/
theorem C4_growth_off_by_one :
    (simStateAt C4_params c4_ret 2).withdrawing = false ∧
      (simLogAt C4_params c4_ret 1).deposit_added = 100 ∧
      (simLogAt C4_params c4_ret 1).deposit_added
        ≠ C4_params.monthly_deposit * (1 + C4_params.deposit_growth_rate) ^ (1:ℕ) := by
  have hd1 : (simLogAt C4_params c4_ret 1).deposit_added = 100 := by
    rw [deposit_added_of_accumulating C4_params c4_ret 1 C4_flag2, simStateAt_succ_deposit,
      if_neg (fun hc => absurd hc.2 (lt_irrefl 0))]
    rfl
  refine ⟨C4_flag2, hd1, ?_⟩
  rw [hd1]
  have h200 : C4_params.monthly_deposit * (1 + C4_params.deposit_growth_rate) ^ (1:ℕ) = 200 := by
    show (100:ℚ) * (1 + 1) ^ (1:ℕ) = 200
    norm_num
  rw [h200]
  norm_num

/-- The C1 scenario, but the first-month return draw is -200% (a Gaussian
sample below -2 standard deviations here), driving the portfolio
negative. -/
def C7_params : SimParams :=
  { initial_deposit := 3000
    monthly_deposit := 100
    deposit_growth_rate := 1/1000
    monthly_mean_return := 0
    annual_inflation_rate := 0
    annual_withdrawal_rate := 4/100
    target_annual_living_cost := 30000
    years := 1
    annual_volatility := 7/2
    sqrt_twelve := 7/2 }

def c7_ret : ℕ → ℚ := fun _ => -2

theorem C7_flag1 : (simStateAt C7_params c7_ret 1).withdrawing = true := by
  have h3000 := (gross_bounds_target30000 C7_params 0 rfl rfl).2
  rw [simStateAt_succ_withdrawing]
  show (false || decide (gross_needed_per_month C7_params 0 ≤ (3000:ℚ))) = true
  rw [Bool.false_or, decide_eq_true_eq]
  exact h3000

theorem C7_pbefore : (simLogAt C7_params c7_ret 0).portfolio_before_withdrawal = -3000 := by
  rw [simLogAt_before_withdrawal, deposit_added_zero_of_withdrawing C7_params c7_ret 0 C7_flag1]
  have hp : (simStateAt C7_params c7_ret 0).portfolio_value = 3000 := rfl
  have hr : c7_ret 0 = -2 := rfl
  rw [hp, hr]
  norm_num

/-- C7 (amended): every recorded withdrawal w satisfies 0 ≤ w and
w ≤ max 0 (portfolio before the subtraction); the upper bound by the raw
portfolio value only holds when that value is non-negative, since a
return draw below -100% can leave a negative portfolio from which 0 is
withdrawn. -/
theorem C7_withdrawal_bounds (P : SimParams) (ret : ℕ → ℚ) (m : ℕ) :
    0 ≤ (simLogAt P ret m).withdrawal_amt ∧
      (simLogAt P ret m).withdrawal_amt
        ≤ max 0 ((simLogAt P ret m).portfolio_before_withdrawal) :=
  ⟨withdrawal_nonneg P ret m, withdrawal_le_before P ret m⟩

/-- C7 counterexample: after a -200% return the pre-withdrawal portfolio
is -3000 while the recorded withdrawal is 0, so w ≤ portfolio fails. -/
theorem C7_negative_portfolio_violation :
    (simLogAt C7_params c7_ret 0).withdrawal_amt = 0 ∧
      (simLogAt C7_params c7_ret 0).portfolio_before_withdrawal = -3000 ∧
      ¬ ((simLogAt C7_params c7_ret 0).withdrawal_amt
          ≤ (simLogAt C7_params c7_ret 0).portfolio_before_withdrawal) := by
  have h2500 := (gross_bounds_target30000 C7_params 0 rfl rfl).1
  have hw0 : (simLogAt C7_params c7_ret 0).withdrawal_amt = 0 := by
    rw [simLogAt_withdrawal, if_pos C7_flag1,
      if_neg (by rw [C7_pbefore]; exact not_le.mpr (lt_of_lt_of_le (by norm_num) h2500))]
  refine ⟨hw0, C7_pbefore, ?_⟩
  rw [hw0, C7_pbefore]
  norm_num

/-- C10: once the withdrawing flag is set in a run it stays set, and no
deposit is added in any later period. -/
theorem C10_retirement_monotone (P : SimParams) (ret : ℕ → ℚ) (m m' : ℕ) (h : m ≤ m')
    (hw : (simStateAt P ret m).withdrawing = true) :
    (simStateAt P ret m').withdrawing = true ∧ (simLogAt P ret m').deposit_added = 0 := by
  refine ⟨withdrawing_mono P ret m m' h hw, ?_⟩
  exact deposit_added_zero_of_withdrawing P ret m'
    (withdrawing_mono P ret m (m' + 1) (h.trans (Nat.le_succ m')) hw)

theorem C10_retirement_monotone_witness :
    1 ≤ 3 ∧ (simStateAt C3_params c3_ret 1).withdrawing = true ∧
      (simStateAt C3_params c3_ret 3).withdrawing = true ∧
      (simLogAt C3_params c3_ret 3).deposit_added = 0 := by
  have h := C10_retirement_monotone C3_params c3_ret 1 3 (by decide) C3_flag1
  exact ⟨by decide, C3_flag1, h.1, h.2⟩

/-- C2: the tax inverse round-trips: the net at the returned gross is
within 0.01 of the target whenever the target does not exceed the net
achievable at the 2000000 ceiling. -/
theorem C2_tax_inverse_roundtrip (net_target pa brt hrt : ℚ) (h1 : 0 ≤ net_target)
    (h2 : net_target ≤ 1000000) (h3 : 0 ≤ pa) (h4 : pa ≤ brt) (h5 : brt ≤ hrt)
    (h6 : net_target ≤ calc_net_annual 2000000 pa brt hrt) :
    |calc_net_annual (required_gross_annual_for_net_annual net_target pa brt hrt) pa brt hrt
      - net_target| ≤ 1/100 :=
  required_roundtrip net_target pa brt hrt h1 h3 h4 h5 h6

theorem C2_tax_inverse_roundtrip_witness :
    ((0:ℚ) ≤ 40000 ∧ (40000:ℚ) ≤ 1000000 ∧ (0:ℚ) ≤ 12570 ∧ (12570:ℚ) ≤ 50270 ∧
        (50270:ℚ) ≤ 125140 ∧ (40000:ℚ) ≤ calc_net_annual 2000000 12570 50270 125140) ∧
      |calc_net_annual (required_gross_annual_for_net_annual 40000 12570 50270 125140)
        12570 50270 125140 - 40000| ≤ 1/100 :=
  ⟨⟨by norm_num, by norm_num, by norm_num, by norm_num, by norm_num,
      by rw [net_at_2000000]; norm_num⟩,
    C2_tax_inverse_roundtrip 40000 12570 50270 125140 (by norm_num) (by norm_num)
      (by norm_num) (by norm_num) (by norm_num) (by rw [net_at_2000000]; norm_num)⟩

/-- C6: the brackets are the base cutoffs times
(1 + inflation) ^ (5 * (year / 5)); they depend only on year / 5, so they
are constant on each 5-year block and change only at multiples of 5, and
for non-negative inflation the factor is non-decreasing in the year. -/
theorem C6_bracket_reindexing (y y₁ y₂ : ℕ) (i : ℚ) (hi : 0 ≤ i) (h5 : y / 5 = y₁ / 5)
    (hy : y ≤ y₂) :
    get_tax_brackets_for_year y i
        = (12570 * bracket_factor y i, 50270 * bracket_factor y i,
            125140 * bracket_factor y i) ∧
      get_tax_brackets_for_year y i = get_tax_brackets_for_year y₁ i ∧
      bracket_factor y i ≤ bracket_factor y₂ i := by
  refine ⟨rfl, ?_, ?_⟩
  · unfold get_tax_brackets_for_year bracket_factor
    rw [h5]
  · unfold bracket_factor
    exact pow_le_pow_right (by linarith) (Nat.mul_le_mul_left 5 (Nat.div_le_div_right hy))

theorem C6_bracket_reindexing_witness :
    ((0:ℚ) ≤ 1/20 ∧ (3:ℕ) / 5 = 4 / 5 ∧ (3:ℕ) ≤ 9) ∧
      (get_tax_brackets_for_year 3 (1/20)
          = (12570 * bracket_factor 3 (1/20), 50270 * bracket_factor 3 (1/20),
              125140 * bracket_factor 3 (1/20)) ∧
        get_tax_brackets_for_year 3 (1/20) = get_tax_brackets_for_year 4 (1/20) ∧
        bracket_factor 3 (1/20) ≤ bracket_factor 9 (1/20)) :=
  ⟨⟨by norm_num, by decide, by decide⟩,
    C6_bracket_reindexing 3 4 9 (1/20) (by norm_num) (by decide) (by decide)⟩

/-- C9 (amended): the result of the bisection is the upper end after
exactly 50 iterations and always lies in [0, 2000000]; for an ordered
bracket triple an unachievable target saturates at exactly 2000000.  For
unordered triples the saturation can fail, see the counterexample. -/
theorem C9_bisection_bounds (t pa brt hrt t₂ pa₂ brt₂ hrt₂ : ℚ) (h3 : 0 ≤ pa)
    (h4 : pa ≤ brt) (h5 : brt ≤ hrt) (h6 : calc_net_annual 2000000 pa brt hrt < t) :
    required_gross_annual_for_net_annual t pa brt hrt
        = (bisect_iter t pa brt hrt 50 (0, 2000000)).2 ∧
      required_gross_annual_for_net_annual t pa brt hrt = 2000000 ∧
      0 ≤ required_gross_annual_for_net_annual t₂ pa₂ brt₂ hrt₂ ∧
      required_gross_annual_for_net_annual t₂ pa₂ brt₂ hrt₂ ≤ 2000000 := by
  have hnet0 : 0 ≤ calc_net_annual 2000000 pa brt hrt :=
    calc_net_nonneg _ _ _ _ (by norm_num) h3 h4 h5
  refine ⟨?_, required_gross_saturates t pa brt hrt h3 h4 h5 h6,
    required_gross_nonneg t₂ pa₂ brt₂ hrt₂, required_gross_le t₂ pa₂ brt₂ hrt₂⟩
  unfold required_gross_annual_for_net_annual
  rw [if_neg (not_le.mpr (lt_of_le_of_lt hnet0 h6))]

theorem C9_bisection_bounds_witness :
    ((0:ℚ) ≤ 12570 ∧ (12570:ℚ) ≤ 50270 ∧ (50270:ℚ) ≤ 125140 ∧
        calc_net_annual 2000000 12570 50270 125140 < 2000000) ∧
      (required_gross_annual_for_net_annual 2000000 12570 50270 125140
          = (bisect_iter 2000000 12570 50270 125140 50 (0, 2000000)).2 ∧
        required_gross_annual_for_net_annual 2000000 12570 50270 125140 = 2000000 ∧
        0 ≤ required_gross_annual_for_net_annual (-5) 1 0 0 ∧
        required_gross_annual_for_net_annual (-5) 1 0 0 ≤ 2000000) :=
  ⟨⟨by norm_num, by norm_num, by norm_num, by rw [net_at_2000000]; norm_num⟩,
    C9_bisection_bounds 2000000 12570 50270 125140 (-5) 1 0 0 (by norm_num) (by norm_num)
      (by norm_num) (by rw [net_at_2000000]; norm_num)⟩

theorem net_unordered_at_2000000 : calc_net_annual 2000000 1500000 0 0 = 1100000 := by
  norm_num [calc_net_annual, calc_tax_annual, min_def, max_def]

theorem net_unordered_at_1000000 : calc_net_annual 1000000 1500000 0 0 = 1000000 := by
  norm_num [calc_net_annual, calc_tax_annual]

theorem net_unordered_at_1500000 : calc_net_annual 1500000 1500000 0 0 = 1500000 := by
  norm_num [calc_net_annual, calc_tax_annual]

/-- C9 counterexample: with the unordered bracket triple
pa = 1500000, brt = hrt = 0 the target 1200000 exceeds the net at the
ceiling (1100000), yet the bisection converges inside the interval and
does not return 2000000: the net is not monotone there, the second
midpoint 1500000 already nets 1500000 ≥ 1200000, and the upper end never
exceeds 1500000 afterwards. -/
theorem C9_saturation_fails_unordered :
    calc_net_annual 2000000 1500000 0 0 < 1200000 ∧
      required_gross_annual_for_net_annual 1200000 1500000 0 0 ≠ 2000000 := by
  constructor
  · rw [net_unordered_at_2000000]
    norm_num
  · have hstep1 : bisect_step 1200000 1500000 0 0 (0, 2000000) = (1000000, 2000000) := by
      simp only [bisect_step]
      have hmid : (((0:ℚ), (2000000:ℚ)).1 + ((0:ℚ), (2000000:ℚ)).2) / 2 = 1000000 := by
        norm_num
      rw [hmid, net_unordered_at_1000000, if_pos (by norm_num : (1000000:ℚ) < 1200000)]
    have hstep2 : bisect_step 1200000 1500000 0 0 (1000000, 2000000)
        = (1000000, 1500000) := by
      simp only [bisect_step]
      have hmid : (((1000000:ℚ), (2000000:ℚ)).1 + ((1000000:ℚ), (2000000:ℚ)).2) / 2
          = 1500000 := by norm_num
      rw [hmid, net_unordered_at_1500000,
        if_neg (by norm_num : ¬ (1500000:ℚ) < 1200000)]
    have hkey : (bisect_iter 1200000 1500000 0 0 50 (0, 2000000)).2 ≤ 1500000 := by
      have e1 : bisect_iter 1200000 1500000 0 0 50 (0, 2000000)
          = bisect_iter 1200000 1500000 0 0 48
              (bisect_step 1200000 1500000 0 0 (bisect_step 1200000 1500000 0 0
                (0, 2000000))) := rfl
      rw [e1, hstep1, hstep2]
      exact (bisect_iter_bounds 1200000 1500000 0 0 48 (1000000, 1500000) (by norm_num)).2
    unfold required_gross_annual_for_net_annual
    rw [if_neg (by norm_num : ¬ (1200000:ℚ) ≤ 0)]
    intro hcon
    rw [hcon] at hkey
    norm_num at hkey

/-! ## Zero volatility -/

theorem monthly_std_zero (P : SimParams) (hv : P.annual_volatility = 0) :
    monthly_std P = 0 := by
  unfold monthly_std
  rw [hv]
  exact zero_div _

theorem gauss_stream_const (P : SimParams) (z : ℕ → ℚ) (hv : P.annual_volatility = 0) :
    gauss_stream P z = fun _ => P.monthly_mean_return := by
  funext m
  unfold gauss_stream gauss
  rw [monthly_std_zero P hv]
  ring

theorem simulate_investment_deterministic (P : SimParams) (z z' : ℕ → ℚ)
    (hv : P.annual_volatility = 0) :
    simulate_investment P z = simulate_investment P z' := by
  unfold simulate_investment
  rw [gauss_stream_const P z hv, gauss_stream_const P z' hv]

theorem run_success_exists (P : SimParams) (z : ℕ → ℚ) :
    ∃ b : Bool, run_success P z = some b := by
  unfold run_success
  by_cases h : (simulate_investment P z).start_withdrawal_date.isSome = false
  · exact ⟨false, by rw [if_pos h]⟩
  · rw [if_neg h]
    have htm : total_months P ≠ 0 := by
      intro h0
      apply h
      show (simStateAt P (gauss_stream P z)
        (total_months P)).start_withdrawal_month.isSome = false
      rw [h0]
      rfl
    have hne : (simulate_investment P z).portfolio_values ≠ [] := by
      show (List.range (total_months P)).map _ ≠ []
      simp [List.map_eq_nil, List.range_eq_nil, htm]
    obtain ⟨last, hlast⟩ := Option.isSome_iff_exists.mp (List.getLast?_isSome.mpr hne)
    exact ⟨decide (0 < last), by rw [hlast]; rfl⟩

theorem countP_replicate {α : Type} (p : α → Bool) (n : ℕ) (a : α) :
    (List.replicate n a).countP p = if p a then n else 0 := by
  induction n with
  | zero => simp
  | succ n ih =>
    rw [List.replicate_succ, List.countP_cons, ih]
    split_ifs with h <;> omega

theorem any_replicate_false {α : Type} (p : α → Bool) (n : ℕ) (a : α) (h : p a = false) :
    (List.replicate n a).any p = false := by
  induction n with
  | zero => rfl
  | succ n ih => rw [List.replicate_succ, List.any_cons, h, Bool.false_or, ih]

/-- C8: with zero volatility every return draw is exactly the monthly
mean, any two runs with the same parameters coincide, and run_monte_carlo
with any run count of at least 1 returns exactly 0 or exactly 100. -/
theorem C8_zero_volatility_determinism (P : SimParams) (z z' : ℕ → ℚ) (Z : ℕ → ℕ → ℚ)
    (num : ℤ) (m : ℕ) (hv : P.annual_volatility = 0) (hN : 1 ≤ num) :
    gauss_stream P z m = P.monthly_mean_return ∧
      simulate_investment P z = simulate_investment P z' ∧
      (run_monte_carlo P Z num = some 0 ∨ run_monte_carlo P Z num = some 100) := by
  refine ⟨by rw [gauss_stream_const P z hv], simulate_investment_deterministic P z z' hv, ?_⟩
  obtain ⟨b, hb⟩ := run_success_exists P (fun _ => 0)
  have hall : ∀ i : ℕ, run_success P (Z i) = some b := by
    intro i
    rw [← hb]
    unfold run_success
    rw [simulate_investment_deterministic P (Z i) (fun _ => 0) hv]
  have hmap : (List.range num.toNat).map (fun i => run_success P (Z i))
      = List.replicate num.toNat (some b) := by
    refine List.eq_replicate.mpr ⟨by simp, ?_⟩
    intro x hx
    obtain ⟨i, _, hi⟩ := List.mem_map.mp hx
    rw [← hi, hall i]
  have hnum0 : num ≠ 0 := by omega
  have hnumq : ((num.toNat : ℚ)) = (num : ℚ) := by
    have h0 : (0:ℤ) ≤ num := by omega
    rw [show ((num.toNat : ℚ)) = (((num.toNat : ℤ)) : ℚ) by push_cast; ring,
      Int.toNat_of_nonneg h0]
  have hnumne : ((num : ℚ)) ≠ 0 := Int.cast_ne_zero.mpr hnum0
  unfold run_monte_carlo
  rw [hmap]
  dsimp only
  rw [any_replicate_false (fun r => r.isNone) num.toNat (some b) rfl,
    if_neg Bool.false_ne_true, if_neg hnum0, countP_replicate]
  cases b with
  | false =>
    left
    rw [if_neg (by simp : ¬ ((some false : Option Bool) == some true) = true)]
    norm_num
  | true =>
    right
    rw [if_pos (by rfl : ((some true : Option Bool) == some true) = true)]
    rw [hnumq, div_self hnumne, one_mul]

theorem C8_zero_volatility_determinism_witness :
    (C3_params.annual_volatility = 0 ∧ (1:ℤ) ≤ 1) ∧
      (gauss_stream C3_params (fun _ => 0) 0 = C3_params.monthly_mean_return ∧
        simulate_investment C3_params (fun _ => 0)
          = simulate_investment C3_params (fun _ => 1) ∧
        (run_monte_carlo C3_params (fun _ _ => 0) 1 = some 0 ∨
          run_monte_carlo C3_params (fun _ _ => 0) 1 = some 100)) :=
  ⟨⟨rfl, by decide⟩,
    C8_zero_volatility_determinism C3_params (fun _ => 0) (fun _ => 1) (fun _ _ => 0) 1 0
      rfl (by decide)⟩

/-! ## Parameter validation -/

/-- An invalid parameter set: negative years. -/
def C5_params : SimParams :=
  { initial_deposit := 1000
    monthly_deposit := 100
    deposit_growth_rate := 1/1000
    monthly_mean_return := 1/100
    annual_inflation_rate := 48/1000
    annual_withdrawal_rate := 4/100
    target_annual_living_cost := 30000
    years := -1
    annual_volatility := 15/100
    sqrt_twelve := 7/2 }

theorem no_validation_facts (z : ℕ → ℚ) (Z : ℕ → ℕ → ℚ) :
    simulate_investment C5_params z
        = { dates_list := [], portfolio_values := [], withdrawal_values := [],
            start_withdrawal_date := none, total_withdrawn := 0 } ∧
      run_monte_carlo C5_params Z (-3) = some 0 ∧
      run_monte_carlo C3_params Z 0 = none ∧
      simulate_average_simulation C5_params Z (-3) = some (none, [], []) := by
  refine ⟨rfl, ?_, ?_, ?_⟩
  · unfold run_monte_carlo
    rw [show ((-3:ℤ)).toNat = 0 from rfl]
    norm_num
  · unfold run_monte_carlo
    rw [show ((0:ℤ)).toNat = 0 from rfl]
    norm_num
  · rfl

/-- C5 (amended): the engine performs no parameter validation and has no
typed InvalidParameter error.  Negative years make simulate_investment
return an empty result normally; a negative run count makes
run_monte_carlo return 0 normally; a run count of 0 hits an untyped
ZeroDivisionError (modelled as none); simulate_average_simulation with a
negative run count returns zero-run averages normally. -/
theorem C5_no_validation (z : ℕ → ℚ) (Z : ℕ → ℕ → ℚ) :
    simulate_investment C5_params z
        = { dates_list := [], portfolio_values := [], withdrawal_values := [],
            start_withdrawal_date := none, total_withdrawn := 0 } ∧
      run_monte_carlo C5_params Z (-3) = some 0 ∧
      run_monte_carlo C3_params Z 0 = none ∧
      simulate_average_simulation C5_params Z (-3) = some (none, [], []) :=
  no_validation_facts z Z

/-- C5 counterexample: invalid parameters do not fail fast - the entry
points return normal values (or hit an untyped error for run count 0)
instead of a typed InvalidParameter. -/
theorem C5_invalid_inputs_run_normally :
    simulate_investment C5_params (fun _ => 0)
        = { dates_list := [], portfolio_values := [], withdrawal_values := [],
            start_withdrawal_date := none, total_withdrawn := 0 } ∧
      run_monte_carlo C5_params (fun _ _ => 0) (-3) = some 0 :=
  ⟨(no_validation_facts (fun _ => 0) (fun _ _ => 0)).1,
    (no_validation_facts (fun _ => 0) (fun _ _ => 0)).2.1⟩

end InvestmentCalc
